import Mathlib

/-!
Shallow embedding of the client-side script of the Code-Ride static website
(src/js/components.js, the refactored `ComponentsModule`), together with
theorems settling the specification claims about it.

The DOM is modelled at the granularity the script observes it:
an element's class list (`DOMTokenList`) is a list of strings, a lookup
table from element identifiers to elements stands for `document.getElementById`,
and the `fetch` of a fragment is an oracle from paths to outcomes.
-/

namespace CodeRide

/-- A `DOMTokenList` (an element's `classList`), modelled as the list of its
class tokens. -/
abbrev ClassList := List String

/-- `classList.add(c)`: appends the token unless it is already present. -/
def ClassList.addClass (cl : ClassList) (c : String) : ClassList :=
  if c ∈ cl then cl else cl ++ [c]

/-- `classList.remove(c)`: removes every occurrence of the token. -/
def ClassList.removeClass (cl : ClassList) (c : String) : ClassList :=
  cl.filter (fun x => x ≠ c)

/-- `classList.toggle(c)`: removes the token when present, adds it otherwise. -/
def ClassList.toggleClass (cl : ClassList) (c : String) : ClassList :=
  if c ∈ cl then cl.removeClass c else cl.addClass c

/-- `classList.add(c₁, c₂, …)`: adds each token in order. -/
def ClassList.addAll (cl : ClassList) (cs : List String) : ClassList :=
  cs.foldl ClassList.addClass cl

/-- `classList.remove(c₁, c₂, …)`: removes each token in order. -/
def ClassList.removeAll (cl : ClassList) (cs : List String) : ClassList :=
  cs.foldl ClassList.removeClass cl

/-! ## Component loader (src/js/components.js, lines 7-105) -/

/-- A `fetch` response, reduced to the fields the script reads:
`response.ok` and (via `response.text()`) the body. -/
structure Response where
  ok : Bool
  text : String
deriving DecidableEq, Repr

/-- Outcome of a `fetch` call: a response, or a rejected promise
(network failure). -/
inductive FetchOutcome where
  | success (response : Response)
  | networkError
deriving DecidableEq, Repr

/-- The document, at the granularity `loadComponent` observes it: a table
from element identifier to the element's `innerHTML`. -/
abbrev Dom := List (String × String)

/-- `document.getElementById(id)`, returning the element's `innerHTML`
when an element with that identifier exists. -/
def getElementById (dom : Dom) (id : String) : Option String :=
  (dom.find? (fun p => p.1 = id)).map Prod.snd

/-- `element.innerHTML = html` on the element with the given identifier. -/
def setInnerHTML (dom : Dom) (id html : String) : Dom :=
  dom.map (fun p => if p.1 = id then (p.1, html) else p)

/-- `COMPONENT_PATH` (components.js line 14, via `getComponentPath`):
all pages sit in the root directory, so the relative prefix is fixed. -/
def COMPONENT_PATH : String := "components/"

/-- `AUTH_PAGES` (components.js line 15). -/
def AUTH_PAGES : List String := ["login.html", "create-account.html", "verify-code.html"]

/-- What one `loadComponent` call did: its return value, the document
afterwards, whether `console.error` ran, and the paths it fetched. -/
structure LoadResult where
  ret : Bool
  dom : Dom
  errorLogged : Bool
  fetched : List String
deriving DecidableEq, Repr

/-- `loadComponent` (components.js lines 32-53): fetch
`components/<name>.html`; a rejected fetch or a non-ok response is thrown
and caught, logging the error and returning `false`; otherwise the body is
written into the target element when it exists (returning `true`), and
`false` is returned when the target is missing. -/
def loadComponent (fetch : String → FetchOutcome) (dom : Dom)
    (componentName targetElementId : String) : LoadResult :=
  let componentPath := COMPONENT_PATH ++ componentName ++ ".html"
  match fetch componentPath with
  | .networkError => ⟨false, dom, true, [componentPath]⟩
  | .success response =>
      if !response.ok then ⟨false, dom, true, [componentPath]⟩
      else
        match getElementById dom targetElementId with
        | some _ => ⟨true, setInnerHTML dom targetElementId response.text, false, [componentPath]⟩
        | none => ⟨false, dom, false, [componentPath]⟩

/-- JavaScript `String.prototype.split` with a one-character separator,
over the character list: `""` splits to `[""]`, and a trailing separator
yields a trailing empty segment. -/
def splitChar (sep : Char) : List Char → List (List Char)
  | [] => [[]]
  | c :: rest =>
      if c = sep then [] :: splitChar sep rest
      else
        match splitChar sep rest with
        | [] => [[c]]
        | g :: gs => (c :: g) :: gs

/-- JavaScript `s.split(sep)` for a one-character separator string. -/
def jsSplit (s : String) (sep : Char) : List String :=
  (splitChar sep s.toList).map (fun cs => ⟨cs⟩)

/-- JavaScript `Array.prototype.pop` on the result of a split (the array
is never empty, so the fallback is unreachable). -/
def lastOr (xs : List String) (fallback : String) : String :=
  match xs with
  | [] => fallback
  | [x] => x
  | _ :: rest => lastOr rest fallback

/-- `getCurrentPageFileName` (components.js lines 20-27): last path
segment of the location, after a backslash split under the `file:`
protocol; an empty result (a falsy string) defaults to `index.html`. -/
def getCurrentPageFileName (protocol pathname : String) : String :=
  let path := if protocol = "file:" then lastOr (jsSplit pathname '\\') "" else pathname
  let fileName := lastOr (jsSplit path '/') ""
  if fileName = "" then "index.html" else fileName

/-- Result of `loadComponents`: the two loaded flags, the document
afterwards, and the fetched paths. -/
structure ComponentsResult where
  headerLoaded : Bool
  footerLoaded : Bool
  dom : Dom
  fetched : List String
deriving DecidableEq, Repr

/-- `loadComponents` (components.js lines 58-79): on an auth page both
flags are false and nothing is fetched; otherwise the header and then the
footer fragment are loaded. -/
def loadComponents (fetch : String → FetchOutcome) (dom : Dom)
    (currentPage : String) : ComponentsResult :=
  if currentPage ∈ AUTH_PAGES then
    ⟨false, false, dom, []⟩
  else
    let header := loadComponent fetch dom "header" "header-placeholder"
    let footer := loadComponent fetch header.dom "footer" "footer-placeholder"
    ⟨header.ret, footer.ret, footer.dom, header.fetched ++ footer.fetched⟩

/-- One observable step of `initialize`. -/
inductive InitStep where
  | fetched (path : String)
  | sideMenuInit
  | activeNavUpdate
  | pageSpecificsInit
  | authFormsSetup
  | logoutSetup
deriving DecidableEq, Repr

/-- `initialize` (components.js lines 84-105) as the sequence of steps it
performs: the fragment fetches of `loadComponents`, then
`initializeSideMenu` when the header loaded, then `updateActiveNav` when
the footer loaded, then the unconditional page-specific, auth-form and
logout setup. -/
def initializeComponents (fetch : String → FetchOutcome) (dom : Dom)
    (currentPage : String) : ComponentsResult × List InitStep :=
  let res := loadComponents fetch dom currentPage
  (res,
    res.fetched.map InitStep.fetched
      ++ (if res.headerLoaded then [InitStep.sideMenuInit] else [])
      ++ (if res.footerLoaded then [InitStep.activeNavUpdate] else [])
      ++ [InitStep.pageSpecificsInit, InitStep.authFormsSetup, InitStep.logoutSetup])

/-! ## Side menu (src/js/components.js, lines 110-138) -/

/-- `true` exactly when running the modelled handler raises an exception
(a rejected dereference of a `null` DOM lookup). -/
def throws {α : Type} : Except String α → Bool
  | .error _ => true
  | .ok _ => false

/-- The menu-toggle click handler (components.js lines 123-127). It is
attached only when `menuToggle` exists, but dereferences `sideMenu`,
`menuIcon` and `closeIcon` without null checks, so any of them missing
raises a `TypeError`; otherwise each of the three toggles `hidden`. -/
def menuToggleClick (sideMenu menuIcon closeIcon : Option ClassList) :
    Except String (ClassList × ClassList × ClassList) :=
  match sideMenu with
  | none => .error "TypeError: sideMenu is null"
  | some sm =>
      match menuIcon with
      | none => .error "TypeError: menuIcon is null"
      | some mi =>
          match closeIcon with
          | none => .error "TypeError: closeIcon is null"
          | some ci => .ok (sm.toggleClass "hidden", mi.toggleClass "hidden", ci.toggleClass "hidden")

/-- What `initializeSideMenu` (components.js lines 110-138) wires up: the
header title is set only when the element exists and the document title is
truthy; the toggle-click handler is attached only when `menuToggle`
exists; the document-level outside-click handler is always attached. -/
structure SideMenuWiring where
  titleSet : Bool
  toggleHandlerAttached : Bool
  outsideClickHandlerAttached : Bool
deriving DecidableEq, Repr

/-- `initializeSideMenu` entry (components.js lines 110-131): the guards
at wiring time. -/
def initializeSideMenu (headerTitlePresent menuTogglePresent : Bool)
    (docTitle : String) : SideMenuWiring :=
  { titleSet := headerTitlePresent && docTitle ≠ ""
    toggleHandlerAttached := menuTogglePresent
    outsideClickHandlerAttached := true }

/-- The class lists of the side-menu panel and the two toggle icons. -/
structure SideMenuState where
  sideMenu : ClassList
  menuIcon : ClassList
  closeIcon : ClassList
deriving DecidableEq, Repr

/-- The document-level click handler (components.js lines 131-137), for a
page where the header elements exist (the handler's own `sideMenu &&
menuToggle` guard holds): when the click target is contained in neither
the panel nor the toggle button and the panel is not hidden, hide the
panel, show the menu icon and hide the close icon; otherwise do nothing. -/
def documentClick (st : SideMenuState)
    (targetInSideMenu targetInMenuToggle : Bool) : SideMenuState :=
  if !targetInSideMenu && !targetInMenuToggle && !("hidden" ∈ st.sideMenu : Bool) then
    { sideMenu := st.sideMenu.addClass "hidden"
      menuIcon := st.menuIcon.removeClass "hidden"
      closeIcon := st.closeIcon.addClass "hidden" }
  else st

/-! ## Rider/driver mode toggle (src/js/components.js, lines 174-215) -/

/-- The in-memory mode flag together with the class lists of the two view
containers and the two mode buttons. -/
structure ModeState where
  isDriverMode : Bool
  riderView : ClassList
  driverView : ClassList
  riderModeBtn : ClassList
  driverModeBtn : ClassList
deriving DecidableEq, Repr

/-- The three classes styling the active mode button. -/
def activeBtnClasses : List String := ["text-blue-600", "border-b-2", "border-blue-600"]

/-- `updateModeUI` (components.js lines 184-200), for a page where both
view containers exist: in rider mode show the rider view, hide the driver
view, style the rider button active and the driver button inactive; in
driver mode the mirror image. -/
def updateModeUI (s : ModeState) : ModeState :=
  if !s.isDriverMode then
    { s with
      riderView := s.riderView.removeClass "hidden"
      driverView := s.driverView.addClass "hidden"
      riderModeBtn := (s.riderModeBtn.addAll activeBtnClasses).removeClass "text-gray-500"
      driverModeBtn := (s.driverModeBtn.addClass "text-gray-500").removeAll activeBtnClasses }
  else
    { s with
      driverView := s.driverView.removeClass "hidden"
      riderView := s.riderView.addClass "hidden"
      driverModeBtn := (s.driverModeBtn.addAll activeBtnClasses).removeClass "text-gray-500"
      riderModeBtn := (s.riderModeBtn.addClass "text-gray-500").removeAll activeBtnClasses }

/-- `updateModeUI` with the view containers as raw lookups (components.js
lines 180-200): the render dereferences both views without null checks,
so a missing view container raises a `TypeError`. -/
def updateModeUIChecked (isDriverMode : Bool)
    (riderView driverView : Option ClassList)
    (riderModeBtn driverModeBtn : ClassList) : Except String ModeState :=
  match riderView, driverView with
  | some rv, some dv => .ok (updateModeUI ⟨isDriverMode, rv, dv, riderModeBtn, driverModeBtn⟩)
  | none, _ => .error "TypeError: riderView is null"
  | some _, none => .error "TypeError: driverView is null"

/-- `initializePageSpecifics` (components.js lines 174-215): nothing
happens unless both mode buttons exist; when they do, the listeners are
attached, the flag starts at rider (`false`) and the initial render runs. -/
def initializePageSpecifics (riderModeBtn driverModeBtn : Option ClassList)
    (riderView driverView : Option ClassList) : Except String (Option ModeState) :=
  match riderModeBtn, driverModeBtn with
  | some rb, some db => (updateModeUIChecked false riderView driverView rb db).map some
  | _, _ => .ok none

/-- A click on one of the two mode buttons. -/
inductive ModeClick where
  | rider
  | driver
deriving DecidableEq, Repr

/-- The mode-button click handlers (components.js lines 202-210): set the
flag and re-render. -/
def modeClick (s : ModeState) : ModeClick → ModeState
  | .rider => updateModeUI { s with isDriverMode := false }
  | .driver => updateModeUI { s with isDriverMode := true }

/-- The state after page load (components.js lines 182 and 213): flag
`false` (rider) and the initial `updateModeUI` render. -/
def initialModeState (riderView driverView riderModeBtn driverModeBtn : ClassList) : ModeState :=
  updateModeUI ⟨false, riderView, driverView, riderModeBtn, driverModeBtn⟩

/-- A sequence of mode-button clicks, applied in order. -/
def runModeClicks (s : ModeState) (cs : List ModeClick) : ModeState :=
  cs.foldl modeClick s

/-! ## Navigation highlighter (src/js/components.js, lines 143-169) -/

/-- A bottom-navigation control: its `data-page` key (absent when the
attribute is missing) and its class list. -/
structure NavButton where
  page : Option String
  classes : ClassList
deriving DecidableEq, Repr

/-- `accountSubPages` (components.js line 161). -/
def accountSubPages : List String :=
  ["profile", "ride-history", "payment-methods", "ratings-reviews", "support", "promotions"]

/-- Character-list core of JavaScript `String.prototype.replace` with a
string pattern: replace the first occurrence only. -/
def replaceFirstAux (pat rep : List Char) : List Char → List Char
  | [] => []
  | c :: rest =>
      if pat.isPrefixOf (c :: rest) then rep ++ (c :: rest).drop pat.length
      else c :: replaceFirstAux pat rep rest

/-- JavaScript `String.prototype.replace` with a string pattern: replaces
only the first occurrence, and returns the string unchanged when the
pattern does not occur. -/
def replaceFirst (s pat rep : String) : String :=
  ⟨replaceFirstAux pat.toList rep.toList s.toList⟩

/-- The normalization step of `updateActiveNav` (components.js lines
144-152): an empty name or `index.html` becomes the sentinel `home`,
otherwise `.html` is stripped (first occurrence, as `replace` does). -/
def normalizeNavPage (fileName : String) : String :=
  if fileName = "" || fileName = "index.html" then "home"
  else replaceFirst fileName ".html" ""

/-- The per-button body of `updateActiveNav` (components.js lines
155-168): mark the button active on an exact key match, or when its key
is `account` and the current page is an account sub-page; otherwise
remove the active mark. -/
def navButtonUpdate (currentPage : String) (btn : NavButton) : NavButton :=
  if btn.page = some currentPage then
    { btn with classes := btn.classes.addClass "nav-active" }
  else if btn.page = some "account" ∧ currentPage ∈ accountSubPages then
    { btn with classes := btn.classes.addClass "nav-active" }
  else
    { btn with classes := btn.classes.removeClass "nav-active" }

/-- `updateActiveNav` (components.js lines 143-169) over the list of
bottom-navigation buttons, given the current page's file name. -/
def updateActiveNav (fileName : String) (btns : List NavButton) : List NavButton :=
  btns.map (navButtonUpdate (normalizeNavPage fileName))

/-- A navigation control is marked active when it carries `nav-active`. -/
def navActive (btn : NavButton) : Prop := "nav-active" ∈ btn.classes

instance (btn : NavButton) : Decidable (navActive btn) := by
  unfold navActive; infer_instance

/-- Modelled from the spec: the bottom-navigation markup lives in
`components/footer.html`, which is not part of the sources; per the spec,
the controls carry declared page keys among which `home` and `account`
occur, and no account sub-page name (the spec's example: `support` "is
not itself a nav key") is itself a control's key. -/
def specBottomNav (btns : List NavButton) : Prop :=
  (∃ b ∈ btns, b.page = some "home") ∧
  (∃ b ∈ btns, b.page = some "account") ∧
  (∀ b ∈ btns, ∀ p ∈ accountSubPages, b.page ≠ some p)

instance (btns : List NavButton) : Decidable (specBottomNav btns) := by
  unfold specBottomNav; infer_instance

/-- Exactly one of the two view containers carries the `hidden` class
(the other one is the visible view). -/
def exactlyOneViewHidden (s : ModeState) : Prop :=
  ("hidden" ∈ s.riderView ∧ "hidden" ∉ s.driverView)
  ∨ ("hidden" ∈ s.driverView ∧ "hidden" ∉ s.riderView)

instance (s : ModeState) : Decidable (exactlyOneViewHidden s) := by
  unfold exactlyOneViewHidden; infer_instance

/-! ## Lemmas about class-list operations -/

theorem ClassList.mem_addClass_iff (cl : ClassList) (c x : String) :
    x ∈ cl.addClass c ↔ x ∈ cl ∨ x = c := by
  unfold ClassList.addClass
  split
  · constructor
    · exact fun h => Or.inl h
    · rintro (h | rfl)
      · exact h
      · assumption
  · simp [List.mem_append]

theorem ClassList.mem_addClass_self (cl : ClassList) (c : String) :
    c ∈ cl.addClass c :=
  (ClassList.mem_addClass_iff cl c c).mpr (Or.inr rfl)

theorem ClassList.addClass_eq_of_mem {cl : ClassList} {c : String} (h : c ∈ cl) :
    cl.addClass c = cl := by
  unfold ClassList.addClass
  simp [h]

theorem ClassList.mem_removeClass_iff (cl : ClassList) (c x : String) :
    x ∈ cl.removeClass c ↔ x ∈ cl ∧ x ≠ c := by
  unfold ClassList.removeClass
  simp [List.mem_filter]

theorem ClassList.not_mem_removeClass_self (cl : ClassList) (c : String) :
    c ∉ cl.removeClass c := by
  intro h
  exact ((ClassList.mem_removeClass_iff cl c c).mp h).2 rfl

theorem ClassList.removeClass_eq_of_not_mem {cl : ClassList} {c : String}
    (h : c ∉ cl) : cl.removeClass c = cl := by
  unfold ClassList.removeClass
  apply List.filter_eq_self.mpr
  intro x hx
  simp only [ne_eq, decide_eq_true_eq]
  intro hxc
  exact h (hxc ▸ hx)

theorem ClassList.removeClass_idem (cl : ClassList) (c : String) :
    (cl.removeClass c).removeClass c = cl.removeClass c :=
  ClassList.removeClass_eq_of_not_mem (ClassList.not_mem_removeClass_self cl c)

theorem ClassList.addClass_idem (cl : ClassList) (c : String) :
    (cl.addClass c).addClass c = cl.addClass c :=
  ClassList.addClass_eq_of_mem (ClassList.mem_addClass_self cl c)

theorem ClassList.mem_addAll_iff (cs : List String) (cl : ClassList) (x : String) :
    x ∈ cl.addAll cs ↔ x ∈ cl ∨ x ∈ cs := by
  induction cs generalizing cl with
  | nil => simp [ClassList.addAll]
  | cons c cs ih =>
      show x ∈ (cl.addClass c).addAll cs ↔ _
      rw [ih, ClassList.mem_addClass_iff]
      simp [List.mem_cons]
      tauto

theorem ClassList.addAll_eq_of_subset {cs : List String} {cl : ClassList}
    (h : ∀ c ∈ cs, c ∈ cl) : cl.addAll cs = cl := by
  induction cs with
  | nil => rfl
  | cons c cs ih =>
      show (cl.addClass c).addAll cs = cl
      rw [ClassList.addClass_eq_of_mem (h c (List.mem_cons_self c cs))]
      exact ih (fun x hx => h x (List.mem_cons_of_mem c hx))

theorem ClassList.mem_removeAll_iff (cs : List String) (cl : ClassList) (x : String) :
    x ∈ cl.removeAll cs ↔ x ∈ cl ∧ x ∉ cs := by
  induction cs generalizing cl with
  | nil => simp [ClassList.removeAll]
  | cons c cs ih =>
      show x ∈ (cl.removeClass c).removeAll cs ↔ _
      rw [ih, ClassList.mem_removeClass_iff]
      simp [List.mem_cons]
      tauto

theorem ClassList.removeAll_eq_of_disjoint {cs : List String} {cl : ClassList}
    (h : ∀ c ∈ cs, c ∉ cl) : cl.removeAll cs = cl := by
  induction cs with
  | nil => rfl
  | cons c cs ih =>
      show (cl.removeClass c).removeAll cs = cl
      rw [ClassList.removeClass_eq_of_not_mem (h c (List.mem_cons_self c cs))]
      exact ih (fun x hx => h x (List.mem_cons_of_mem c hx))

theorem getElementById_setInnerHTML_isSome (dom : Dom) (id html id' : String) :
    (getElementById (setInnerHTML dom id html) id').isSome
      = (getElementById dom id').isSome := by
  induction dom with
  | nil => rfl
  | cons p dom ih =>
      have hfst : ∀ q : String × String, (if q.1 = id then (q.1, html) else q).1 = q.1 := by
        intro q; by_cases h : q.1 = id <;> simp [h]
      by_cases h2 : p.1 = id'
      · by_cases h3 : id' = id <;>
          simp [getElementById, setInnerHTML, List.find?, h2, h3]
      · simp only [getElementById, setInnerHTML, List.map_cons, List.find?, hfst, h2,
          decide_eq_true_eq, reduceIte]
        simpa [getElementById, setInnerHTML] using ih

theorem loadComponent_ret_congr (fetch : String → FetchOutcome)
    (dom dom' : Dom) (componentName targetElementId : String)
    (h : (getElementById dom' targetElementId).isSome
        = (getElementById dom targetElementId).isSome) :
    (loadComponent fetch dom' componentName targetElementId).ret
      = (loadComponent fetch dom componentName targetElementId).ret := by
  simp only [loadComponent]
  cases hf : fetch (COMPONENT_PATH ++ componentName ++ ".html") with
  | networkError => rfl
  | success response =>
      by_cases hok : response.ok
      · cases h1 : getElementById dom' targetElementId with
        | none =>
            cases h2 : getElementById dom targetElementId with
            | none => simp [hok, h1, h2]
            | some v => rw [h1, h2] at h; simp at h
        | some v =>
            cases h2 : getElementById dom targetElementId with
            | none => rw [h1, h2] at h; simp at h
            | some w => simp [hok, h1, h2]
      · simp only [Bool.not_eq_true] at hok
        simp [hok]

/-! ## Supporting lemmas about the loader -/

theorem getElementById_setInnerHTML_self (dom : Dom) (id html : String)
    (h : (getElementById dom id).isSome = true) :
    getElementById (setInnerHTML dom id html) id = some html := by
  induction dom with
  | nil => simp [getElementById] at h
  | cons p dom ih =>
      by_cases h1 : p.1 = id
      · simp [getElementById, setInnerHTML, List.find?, h1]
      · have h' : (getElementById dom id).isSome = true := by
          simpa [getElementById, List.find?, h1] using h
        simpa [getElementById, setInnerHTML, List.find?, h1] using ih h'

theorem loadComponent_fetched (fetch : String → FetchOutcome) (dom : Dom)
    (componentName targetElementId : String) :
    (loadComponent fetch dom componentName targetElementId).fetched
      = [COMPONENT_PATH ++ componentName ++ ".html"] := by
  simp only [loadComponent]
  cases hf : fetch (COMPONENT_PATH ++ componentName ++ ".html") with
  | networkError => rfl
  | success response =>
      by_cases hok : response.ok
      · cases hel : getElementById dom targetElementId <;> simp [hok, hel]
      · simp only [Bool.not_eq_true] at hok
        simp [hok]

theorem loadComponent_preserves_ids (fetch : String → FetchOutcome) (dom : Dom)
    (componentName targetElementId x : String) :
    (getElementById (loadComponent fetch dom componentName targetElementId).dom x).isSome
      = (getElementById dom x).isSome := by
  simp only [loadComponent]
  cases hf : fetch (COMPONENT_PATH ++ componentName ++ ".html") with
  | networkError => rfl
  | success response =>
      by_cases hok : response.ok
      · cases hel : getElementById dom targetElementId with
        | none => simp [hok, hel]
        | some v => simp [hok, hel, getElementById_setInnerHTML_isSome]
      · simp only [Bool.not_eq_true] at hok
        simp [hok]

/-! ## Claim C1 -/

/-- Claim C1 as stated is false: a successful response does not suffice
for a `true` return. With a fetch that answers `components/header.html`
with an ok response, but a document in which the target identifier
resolves to no element, `loadComponent` returns `false`. -/
theorem claim_C1_counterexample :
    (fun _ => FetchOutcome.success ⟨true, "X"⟩) "components/header.html"
        = FetchOutcome.success ⟨true, "X"⟩
    ∧ (Response.ok ⟨true, "X"⟩) = true
    ∧ ¬ ((loadComponent (fun _ => FetchOutcome.success ⟨true, "X"⟩)
          [] "header" "header-placeholder").ret = true) := by
  refine ⟨rfl, rfl, ?_⟩
  intro h
  simp [loadComponent, getElementById] at h

/-- Claim C1 (amended): `loadComponent` fetches exactly
`components/<name>.html`; when the response is ok AND the target element
exists it writes the body into the target and returns `true` without
logging; when the response is ok but the target is missing it returns
`false` without logging and leaves the document unchanged; on network
failure or a non-ok status it logs the error and returns `false` without
throwing, leaving the document unchanged. -/
theorem claim_C1_loadComponent (fetch : String → FetchOutcome) (dom : Dom)
    (componentName targetElementId : String) :
    (loadComponent fetch dom componentName targetElementId).fetched
        = [COMPONENT_PATH ++ componentName ++ ".html"]
    ∧ (∀ response,
        fetch (COMPONENT_PATH ++ componentName ++ ".html") = .success response →
        response.ok = true →
        (getElementById dom targetElementId).isSome = true →
        (loadComponent fetch dom componentName targetElementId).ret = true
        ∧ getElementById (loadComponent fetch dom componentName targetElementId).dom
            targetElementId = some response.text
        ∧ (loadComponent fetch dom componentName targetElementId).errorLogged = false)
    ∧ (∀ response,
        fetch (COMPONENT_PATH ++ componentName ++ ".html") = .success response →
        response.ok = true →
        getElementById dom targetElementId = none →
        (loadComponent fetch dom componentName targetElementId).ret = false
        ∧ (loadComponent fetch dom componentName targetElementId).dom = dom
        ∧ (loadComponent fetch dom componentName targetElementId).errorLogged = false)
    ∧ (fetch (COMPONENT_PATH ++ componentName ++ ".html") = .networkError →
        (loadComponent fetch dom componentName targetElementId).ret = false
        ∧ (loadComponent fetch dom componentName targetElementId).errorLogged = true
        ∧ (loadComponent fetch dom componentName targetElementId).dom = dom)
    ∧ (∀ response,
        fetch (COMPONENT_PATH ++ componentName ++ ".html") = .success response →
        response.ok = false →
        (loadComponent fetch dom componentName targetElementId).ret = false
        ∧ (loadComponent fetch dom componentName targetElementId).errorLogged = true
        ∧ (loadComponent fetch dom componentName targetElementId).dom = dom) := by
  refine ⟨loadComponent_fetched fetch dom componentName targetElementId, ?_, ?_, ?_, ?_⟩
  · intro response hf hok hsome
    cases hel : getElementById dom targetElementId with
    | none => rw [hel] at hsome; simp at hsome
    | some v =>
        refine ⟨?_, ?_, ?_⟩ <;>
          simp [loadComponent, hf, hok, hel,
            getElementById_setInnerHTML_self dom targetElementId response.text
              (by simp [hel])]
  · intro response hf hok hel
    refine ⟨?_, ?_, ?_⟩ <;> simp [loadComponent, hf, hok, hel]
  · intro hf
    refine ⟨?_, ?_, ?_⟩ <;> simp [loadComponent, hf]
  · intro response hf hok
    refine ⟨?_, ?_, ?_⟩ <;> simp [loadComponent, hf, hok]

/-- Witness for the amended claim C1 at concrete inputs: an ok response
with an existing target loads and returns `true`; a network error returns
`false` with the error logged. -/
theorem claim_C1_loadComponent_witness :
    ((loadComponent (fun _ => FetchOutcome.success ⟨true, "<nav>"⟩)
        [("header-placeholder", "")] "header" "header-placeholder").ret = true
      ∧ getElementById (loadComponent (fun _ => FetchOutcome.success ⟨true, "<nav>"⟩)
          [("header-placeholder", "")] "header" "header-placeholder").dom
          "header-placeholder" = some "<nav>")
    ∧ ((loadComponent (fun _ => FetchOutcome.networkError)
        [("header-placeholder", "")] "header" "header-placeholder").ret = false
      ∧ (loadComponent (fun _ => FetchOutcome.networkError)
          [("header-placeholder", "")] "header" "header-placeholder").errorLogged = true) := by
  have h1 := (claim_C1_loadComponent (fun _ => FetchOutcome.success ⟨true, "<nav>"⟩)
    [("header-placeholder", "")] "header" "header-placeholder").2.1
    ⟨true, "<nav>"⟩ rfl rfl (by simp [getElementById, List.find?])
  have h2 := (claim_C1_loadComponent (fun _ => FetchOutcome.networkError)
    [("header-placeholder", "")] "header" "header-placeholder").2.2.2.1 rfl
  exact ⟨⟨h1.1, h1.2.1⟩, ⟨h2.1, h2.2.1⟩⟩

/-! ## Claim C10 -/

/-- Claim C10: when the fetch succeeds with an ok response but the target
identifier resolves to no element, `loadComponent` returns `false`
without logging any error and without modifying the document. -/
theorem claim_C10_missing_target (fetch : String → FetchOutcome) (dom : Dom)
    (componentName targetElementId : String) (response : Response)
    (hf : fetch (COMPONENT_PATH ++ componentName ++ ".html") = .success response)
    (hok : response.ok = true)
    (hel : getElementById dom targetElementId = none) :
    loadComponent fetch dom componentName targetElementId
      = ⟨false, dom, false, [COMPONENT_PATH ++ componentName ++ ".html"]⟩ := by
  simp [loadComponent, hf, hok, hel]

/-- Witness for claim C10 at a concrete input: ok response, document
without the placeholder. -/
theorem claim_C10_missing_target_witness :
    loadComponent (fun _ => FetchOutcome.success ⟨true, "X"⟩)
        [("other", "")] "header" "header-placeholder"
      = ⟨false, [("other", "")], false, ["components/header.html"]⟩ :=
  claim_C10_missing_target (fun _ => FetchOutcome.success ⟨true, "X"⟩)
    [("other", "")] "header" "header-placeholder" ⟨true, "X"⟩ rfl rfl
    (by simp [getElementById, List.find?])

/-! ## Claim C3 -/

/-- Claim C3: the current page's file name is the last segment of the
location path (after the backslash split under `file:`), defaulting to
`index.html` when that segment is empty; a page is classified as an auth
page exactly when the name is one of the three fixed names; and for every
auth-page file name, `loadComponents` fetches nothing and reports both
loaded flags false, leaving the document untouched. -/
theorem claim_C3_auth_classification :
    (∀ protocol pathname,
      (lastOr (jsSplit (if protocol = "file:"
            then lastOr (jsSplit pathname '\\') "" else pathname) '/') "" = "" →
        getCurrentPageFileName protocol pathname = "index.html")
      ∧ (lastOr (jsSplit (if protocol = "file:"
            then lastOr (jsSplit pathname '\\') "" else pathname) '/') "" ≠ "" →
        getCurrentPageFileName protocol pathname
          = lastOr (jsSplit (if protocol = "file:"
              then lastOr (jsSplit pathname '\\') "" else pathname) '/') ""))
    ∧ (∀ fileName, fileName ∈ AUTH_PAGES ↔
        (fileName = "login.html" ∨ fileName = "create-account.html"
          ∨ fileName = "verify-code.html"))
    ∧ (∀ (fetch : String → FetchOutcome) (dom : Dom) (fileName : String),
        fileName ∈ AUTH_PAGES →
        loadComponents fetch dom fileName = ⟨false, false, dom, []⟩) := by
  refine ⟨?_, ?_, ?_⟩
  · intro protocol pathname
    constructor
    · intro h
      simp only [getCurrentPageFileName]
      rw [h]
      simp
    · intro h
      simp only [getCurrentPageFileName]
      rw [if_neg h]
  · intro fileName
    simp [AUTH_PAGES]
  · intro fetch dom fileName h
    simp [loadComponents, h]

/-- Witness for claim C3 at concrete inputs: a path ending in a slash
defaults to `index.html`; `login.html` is an auth page and skips both
loads with no fetch. -/
theorem claim_C3_auth_classification_witness :
    getCurrentPageFileName "https:" "/pages/" = "index.html"
    ∧ ("login.html" ∈ AUTH_PAGES ↔
        ("login.html" = "login.html" ∨ "login.html" = "create-account.html"
          ∨ "login.html" = "verify-code.html"))
    ∧ loadComponents (fun _ => FetchOutcome.networkError) [("header-placeholder", "")]
        "login.html" = ⟨false, false, [("header-placeholder", "")], []⟩ := by
  refine ⟨?_, ?_, ?_⟩
  · exact (claim_C3_auth_classification.1 "https:" "/pages/").1 (by decide)
  · exact claim_C3_auth_classification.2.1 "login.html"
  · exact claim_C3_auth_classification.2.2 (fun _ => FetchOutcome.networkError)
      [("header-placeholder", "")] "login.html" (by decide)

/-! ## Claim C4 -/

/-- Claim C4: in one run of `initialize`, the side-menu initializer runs
exactly once when the header fragment loaded and not at all when it did
not; likewise the navigation-highlighting initializer runs exactly once
precisely when the footer fragment loaded. -/
theorem claim_C4_dependent_initializers (fetch : String → FetchOutcome)
    (dom : Dom) (currentPage : String) :
    ((initializeComponents fetch dom currentPage).2.count InitStep.sideMenuInit
      = if (initializeComponents fetch dom currentPage).1.headerLoaded then 1 else 0)
    ∧ ((initializeComponents fetch dom currentPage).2.count InitStep.activeNavUpdate
      = if (initializeComponents fetch dom currentPage).1.footerLoaded then 1 else 0) := by
  have hmap : ∀ (c : InitStep) (paths : List String),
      (∀ p, InitStep.fetched p ≠ c) → (paths.map InitStep.fetched).count c = 0 := by
    intro c paths hc
    apply List.count_eq_zero.mpr
    intro hmem
    obtain ⟨p, _, hp⟩ := List.mem_map.mp hmem
    exact hc p hp
  constructor <;>
  · simp only [initializeComponents, List.count_append]
    rw [hmap _ _ (by intro p h; cases h)]
    by_cases hh : (loadComponents fetch dom currentPage).headerLoaded <;>
      by_cases hf : (loadComponents fetch dom currentPage).footerLoaded <;>
        simp [hh, hf, List.count_cons, List.count_nil]

/-! ## Claim C5 -/

/-- Claim C5: off the auth pages, `loadComponents` attempts the header
and the footer fetch exactly once each; and the footer outcome is the
outcome of loading the footer against the original document — in
particular it is unchanged when the header load fails. -/
theorem claim_C5_independent_loads (fetch : String → FetchOutcome)
    (dom : Dom) (currentPage : String) (h : currentPage ∉ AUTH_PAGES) :
    (loadComponents fetch dom currentPage).fetched
        = ["components/header.html", "components/footer.html"]
    ∧ (loadComponents fetch dom currentPage).fetched.count "components/header.html" = 1
    ∧ (loadComponents fetch dom currentPage).fetched.count "components/footer.html" = 1
    ∧ (loadComponents fetch dom currentPage).headerLoaded
        = (loadComponent fetch dom "header" "header-placeholder").ret
    ∧ (loadComponents fetch dom currentPage).footerLoaded
        = (loadComponent fetch dom "footer" "footer-placeholder").ret := by
  have hpath1 : COMPONENT_PATH ++ "header" ++ ".html" = "components/header.html" := rfl
  have hpath2 : COMPONENT_PATH ++ "footer" ++ ".html" = "components/footer.html" := rfl
  have hres : loadComponents fetch dom currentPage
      = ⟨(loadComponent fetch dom "header" "header-placeholder").ret,
         (loadComponent fetch (loadComponent fetch dom "header" "header-placeholder").dom
            "footer" "footer-placeholder").ret,
         (loadComponent fetch (loadComponent fetch dom "header" "header-placeholder").dom
            "footer" "footer-placeholder").dom,
         (loadComponent fetch dom "header" "header-placeholder").fetched
           ++ (loadComponent fetch (loadComponent fetch dom "header" "header-placeholder").dom
                "footer" "footer-placeholder").fetched⟩ := by
    simp [loadComponents, h]
  have hfetched : (loadComponents fetch dom currentPage).fetched
      = ["components/header.html", "components/footer.html"] := by
    rw [hres]
    show (loadComponent fetch dom "header" "header-placeholder").fetched
        ++ (loadComponent fetch _ "footer" "footer-placeholder").fetched = _
    rw [loadComponent_fetched, loadComponent_fetched, hpath1, hpath2]
    rfl
  refine ⟨hfetched, ?_, ?_, ?_, ?_⟩
  · rw [hfetched]; decide
  · rw [hfetched]; decide
  · rw [hres]
  · rw [hres]
    exact loadComponent_ret_congr fetch dom
      (loadComponent fetch dom "header" "header-placeholder").dom
      "footer" "footer-placeholder"
      (loadComponent_preserves_ids fetch dom "header" "header-placeholder"
        "footer-placeholder")

/-- Witness for claim C5 at concrete inputs: on `index.html` with a
header fetch that fails and a footer fetch that succeeds, both fetches
are attempted and the footer still loads. -/
theorem claim_C5_independent_loads_witness :
    ("index.html" ∉ AUTH_PAGES)
    ∧ (loadComponents
        (fun p => if p = "components/footer.html"
          then FetchOutcome.success ⟨true, "F"⟩ else FetchOutcome.networkError)
        [("header-placeholder", ""), ("footer-placeholder", "")] "index.html").fetched
        = ["components/header.html", "components/footer.html"]
    ∧ (loadComponents
        (fun p => if p = "components/footer.html"
          then FetchOutcome.success ⟨true, "F"⟩ else FetchOutcome.networkError)
        [("header-placeholder", ""), ("footer-placeholder", "")] "index.html").headerLoaded
        = false
    ∧ (loadComponents
        (fun p => if p = "components/footer.html"
          then FetchOutcome.success ⟨true, "F"⟩ else FetchOutcome.networkError)
        [("header-placeholder", ""), ("footer-placeholder", "")] "index.html").footerLoaded
        = true := by
  have h := claim_C5_independent_loads
    (fun p => if p = "components/footer.html"
      then FetchOutcome.success ⟨true, "F"⟩ else FetchOutcome.networkError)
    [("header-placeholder", ""), ("footer-placeholder", "")] "index.html" (by decide)
  refine ⟨by decide, h.1, ?_, ?_⟩
  · rw [h.2.2.2.1]; decide
  · rw [h.2.2.2.2]; decide

/-! ## Supporting lemmas about the mode toggle -/

theorem updateModeUI_isDriverMode (s : ModeState) :
    (updateModeUI s).isDriverMode = s.isDriverMode := by
  by_cases h : s.isDriverMode <;> simp [updateModeUI, h]

theorem btnActive_idem (x : ClassList) :
    (((x.addAll activeBtnClasses).removeClass "text-gray-500").addAll
        activeBtnClasses).removeClass "text-gray-500"
      = (x.addAll activeBtnClasses).removeClass "text-gray-500" := by
  have hne : ∀ c ∈ activeBtnClasses, c ≠ "text-gray-500" := by decide
  have hsub : ∀ c ∈ activeBtnClasses,
      c ∈ (x.addAll activeBtnClasses).removeClass "text-gray-500" := by
    intro c hc
    exact (ClassList.mem_removeClass_iff _ _ _).mpr
      ⟨(ClassList.mem_addAll_iff _ _ _).mpr (Or.inr hc), hne c hc⟩
  rw [ClassList.addAll_eq_of_subset hsub, ClassList.removeClass_idem]

theorem btnInactive_idem (x : ClassList) :
    (((x.addClass "text-gray-500").removeAll activeBtnClasses).addClass
        "text-gray-500").removeAll activeBtnClasses
      = (x.addClass "text-gray-500").removeAll activeBtnClasses := by
  have hg : "text-gray-500" ∉ activeBtnClasses := by decide
  have hmem : "text-gray-500" ∈ (x.addClass "text-gray-500").removeAll activeBtnClasses :=
    (ClassList.mem_removeAll_iff _ _ _).mpr ⟨ClassList.mem_addClass_self x _, hg⟩
  rw [ClassList.addClass_eq_of_mem hmem]
  apply ClassList.removeAll_eq_of_disjoint
  intro c hc hin
  exact ((ClassList.mem_removeAll_iff _ _ _).mp hin).2 hc

theorem updateModeUI_idem (s : ModeState) :
    updateModeUI (updateModeUI s) = updateModeUI s := by
  by_cases h : s.isDriverMode <;>
    simp [updateModeUI, h, ClassList.removeClass_idem, ClassList.addClass_idem,
      btnActive_idem, btnInactive_idem]

theorem modeClick_sets_flag (s : ModeState) :
    (modeClick s ModeClick.rider).isDriverMode = false
    ∧ (modeClick s ModeClick.driver).isDriverMode = true := by
  constructor <;> simp [modeClick, updateModeUI_isDriverMode]

theorem modeClick_idem (s : ModeState) (c : ModeClick) :
    modeClick (modeClick s c) c = modeClick s c := by
  have hset : ∀ (t : ModeState) (b : Bool), t.isDriverMode = b →
      { t with isDriverMode := b } = t := by
    intro t b h; cases t; simp_all
  cases c
  · show updateModeUI { modeClick s ModeClick.rider with isDriverMode := false } = _
    rw [hset _ false (modeClick_sets_flag s).1]
    exact updateModeUI_idem _
  · show updateModeUI { modeClick s ModeClick.driver with isDriverMode := true } = _
    rw [hset _ true (modeClick_sets_flag s).2]
    exact updateModeUI_idem _

theorem exactlyOne_updateModeUI (s : ModeState) :
    exactlyOneViewHidden (updateModeUI s) := by
  by_cases h : s.isDriverMode
  · left
    simp only [updateModeUI, h, Bool.not_true, reduceIte]
    exact ⟨ClassList.mem_addClass_self _ _, ClassList.not_mem_removeClass_self _ _⟩
  · right
    simp only [updateModeUI, h, Bool.not_false, reduceIte]
    exact ⟨ClassList.mem_addClass_self _ _, ClassList.not_mem_removeClass_self _ _⟩

/-! ## Claim C6 -/

/-- Claim C6: starting from the default rider state rendered on page load
and after any sequence of earlier clicks, clicking the driver button shows
the driver view and hides the rider view, clicking the rider button shows
the rider view and hides the driver view, and repeating the same click
leaves the state unchanged. -/
theorem claim_C6_mode_toggle (rv dv rb db : ClassList) (cs : List ModeClick) :
    ("hidden" ∉ (modeClick (runModeClicks (initialModeState rv dv rb db) cs)
        ModeClick.driver).driverView
      ∧ "hidden" ∈ (modeClick (runModeClicks (initialModeState rv dv rb db) cs)
        ModeClick.driver).riderView)
    ∧ ("hidden" ∉ (modeClick (runModeClicks (initialModeState rv dv rb db) cs)
        ModeClick.rider).riderView
      ∧ "hidden" ∈ (modeClick (runModeClicks (initialModeState rv dv rb db) cs)
        ModeClick.rider).driverView)
    ∧ (∀ c, modeClick (modeClick (runModeClicks (initialModeState rv dv rb db) cs) c) c
        = modeClick (runModeClicks (initialModeState rv dv rb db) cs) c) := by
  refine ⟨⟨?_, ?_⟩, ⟨?_, ?_⟩, fun c => modeClick_idem _ c⟩ <;>
    simp [modeClick, updateModeUI, ClassList.not_mem_removeClass_self,
      ClassList.mem_addClass_self]

/-! ## Claim C7 -/

/-- Claim C7: after the initial render exactly one of the rider and
driver views carries the `hidden` class, and every mode-button click —
from any state whatsoever — re-establishes this invariant. -/
theorem claim_C7_one_view_visible (rv dv rb db : ClassList) :
    exactlyOneViewHidden (initialModeState rv dv rb db)
    ∧ ∀ (s : ModeState) (c : ModeClick), exactlyOneViewHidden (modeClick s c) := by
  refine ⟨exactlyOne_updateModeUI _, fun s c => ?_⟩
  cases c <;> exact exactlyOne_updateModeUI _

/-! ## Supporting lemmas about the navigation highlighter -/

theorem navButtonUpdate_page (currentPage : String) (btn : NavButton) :
    (navButtonUpdate currentPage btn).page = btn.page := by
  unfold navButtonUpdate
  split
  · rfl
  · split <;> rfl

theorem navActive_navButtonUpdate (currentPage : String) (btn : NavButton) :
    navActive (navButtonUpdate currentPage btn)
      ↔ (btn.page = some currentPage
        ∨ (btn.page = some "account" ∧ currentPage ∈ accountSubPages)) := by
  unfold navButtonUpdate
  by_cases h1 : btn.page = some currentPage
  · simp [h1, navActive, ClassList.mem_addClass_self]
  · by_cases h2 : btn.page = some "account" ∧ currentPage ∈ accountSubPages
    · simp [h1, h2, navActive, ClassList.mem_addClass_self]
    · constructor
      · intro h
        rw [if_neg h1, if_neg h2] at h
        exact absurd h (ClassList.not_mem_removeClass_self _ _)
      · rintro (h | h)
        · exact absurd h h1
        · exact absurd h h2

/-! ## Claim C8 -/

/-- Claim C8: the navigation highlighter maps an empty name and
`index.html` to the sentinel `home` and otherwise strips the `.html`
extension; a control is marked active exactly when its declared page key
equals the normalized name or its key is `account` and the normalized
name is an account sub-page; in particular, on `profile.html` the
`account` controls and no others are active (over any bottom-nav button
set as the spec describes it), and on `index.html` the `home` control is
active. -/
theorem claim_C8_active_nav :
    (normalizeNavPage "" = "home"
      ∧ normalizeNavPage "index.html" = "home"
      ∧ normalizeNavPage "profile.html" = "profile")
    ∧ (∀ fileName btn,
        navActive (navButtonUpdate (normalizeNavPage fileName) btn)
          ↔ (btn.page = some (normalizeNavPage fileName)
            ∨ (btn.page = some "account"
              ∧ normalizeNavPage fileName ∈ accountSubPages)))
    ∧ (∀ btns, specBottomNav btns →
        ∀ b, b ∈ updateActiveNav "profile.html" btns →
          (navActive b ↔ b.page = some "account"))
    ∧ (∀ btns b, b ∈ updateActiveNav "index.html" btns →
        b.page = some "home" → navActive b) := by
  have hprof : normalizeNavPage "profile.html" = "profile" := by decide
  have hsub : "profile" ∈ accountSubPages := by decide
  refine ⟨⟨by decide, by decide, hprof⟩, ?_, ?_, ?_⟩
  · intro fileName btn
    exact navActive_navButtonUpdate (normalizeNavPage fileName) btn
  · intro btns hspec b hb
    obtain ⟨a, ha, rfl⟩ := List.mem_map.mp hb
    rw [hprof] at *
    rw [navActive_navButtonUpdate, navButtonUpdate_page]
    constructor
    · rintro (h | h)
      · exact absurd h (hspec.2.2 a ha "profile" hsub)
      · exact h.1
    · intro h
      exact Or.inr ⟨h, hsub⟩
  · intro btns b hb hpage
    obtain ⟨a, ha, rfl⟩ := List.mem_map.mp hb
    rw [navButtonUpdate_page] at hpage
    rw [navActive_navButtonUpdate]
    left
    rw [hpage]
    rfl

/-- Witness for claim C8 at a concrete bottom-nav button set: on
`profile.html` the `account` control is active, and on `index.html` the
`home` control is. -/
theorem claim_C8_active_nav_witness :
    specBottomNav [⟨some "home", []⟩, ⟨some "wallet", []⟩, ⟨some "account", []⟩]
    ∧ (navActive (⟨some "account", ["nav-active"]⟩ : NavButton)
        ↔ (some "account" : Option String) = some "account")
    ∧ navActive (⟨some "home", ["nav-active"]⟩ : NavButton) := by
  refine ⟨by decide, ?_, ?_⟩
  · exact claim_C8_active_nav.2.2.1
      [⟨some "home", []⟩, ⟨some "wallet", []⟩, ⟨some "account", []⟩] (by decide)
      ⟨some "account", ["nav-active"]⟩ (by decide)
  · exact claim_C8_active_nav.2.2.2
      [⟨some "home", []⟩, ⟨some "wallet", []⟩, ⟨some "account", []⟩]
      ⟨some "home", ["nav-active"]⟩ (by decide) rfl

/-! ## Claim C9 -/

/-- Claim C9: while the side-menu panel is open, a document click whose
target lies outside both the panel and the toggle button closes the panel
(`hidden` added to the panel and the close icon, removed from the menu
icon), and a click inside the open panel leaves the state unchanged. -/
theorem claim_C9_outside_click (st : SideMenuState)
    (targetInSideMenu targetInMenuToggle : Bool)
    (hopen : "hidden" ∉ st.sideMenu) :
    (targetInSideMenu = false → targetInMenuToggle = false →
      ("hidden" ∈ (documentClick st targetInSideMenu targetInMenuToggle).sideMenu
        ∧ "hidden" ∉ (documentClick st targetInSideMenu targetInMenuToggle).menuIcon
        ∧ "hidden" ∈ (documentClick st targetInSideMenu targetInMenuToggle).closeIcon))
    ∧ (targetInSideMenu = true →
        documentClick st targetInSideMenu targetInMenuToggle = st) := by
  constructor
  · rintro rfl rfl
    simp only [documentClick, hopen, Bool.not_false, Bool.and_self, decide_False,
      Bool.and_true, reduceIte]
    exact ⟨ClassList.mem_addClass_self _ _, ClassList.not_mem_removeClass_self _ _,
      ClassList.mem_addClass_self _ _⟩
  · rintro rfl
    simp [documentClick]

/-- Witness for claim C9 at a concrete open-menu state: the outside click
closes the panel; the inside click does not. -/
theorem claim_C9_outside_click_witness :
    ("hidden" ∉ (⟨[], ["hidden"], []⟩ : SideMenuState).sideMenu)
    ∧ ("hidden" ∈ (documentClick ⟨[], ["hidden"], []⟩ false false).sideMenu
        ∧ "hidden" ∉ (documentClick ⟨[], ["hidden"], []⟩ false false).menuIcon
        ∧ "hidden" ∈ (documentClick ⟨[], ["hidden"], []⟩ false false).closeIcon)
    ∧ documentClick ⟨[], ["hidden"], []⟩ true false = ⟨[], ["hidden"], []⟩ := by
  have h := claim_C9_outside_click ⟨[], ["hidden"], []⟩ false false (by decide)
  have h' := claim_C9_outside_click ⟨[], ["hidden"], []⟩ true false (by decide)
  exact ⟨by decide, h.1 rfl rfl, h'.2 rfl⟩

/-! ## Claim C2 -/

/-- Claim C2 as stated is false: a missing element can raise an
exception. The toggle-click handler is attached whenever the toggle
button exists — also when the side-menu panel does not — and a click then
dereferences the missing panel and throws. -/
theorem claim_C2_counterexample :
    (initializeSideMenu false true "").toggleHandlerAttached = true
    ∧ throws (menuToggleClick none (some ["hidden"]) (some [])) = true :=
  ⟨rfl, rfl⟩

/-- Claim C2 (amended): the initializers are null-guarded at their entry
points — no toggle handler is attached without a toggle button, and the
mode-toggle setup does nothing unless both mode buttons exist — and the
handlers run without exception when the elements they use are present;
but inside the handlers the side-menu panel, the icon pair and the view
containers are dereferenced unguarded, so a toggle click or a mode render
with one of them missing raises a TypeError. -/
theorem claim_C2_null_guarding :
    (∀ headerTitlePresent docTitle,
        (initializeSideMenu headerTitlePresent false docTitle).toggleHandlerAttached = false)
    ∧ (∀ sm mi ci, throws (menuToggleClick (some sm) (some mi) (some ci)) = false)
    ∧ (∀ mi ci, throws (menuToggleClick none mi ci) = true)
    ∧ (∀ sm ci, throws (menuToggleClick (some sm) none ci) = true)
    ∧ (∀ sm mi, throws (menuToggleClick (some sm) (some mi) none) = true)
    ∧ (∀ b rv dv rb db, throws (updateModeUIChecked b (some rv) (some dv) rb db) = false)
    ∧ (∀ b dv rb db, throws (updateModeUIChecked b none dv rb db) = true)
    ∧ (∀ b rv rb db, throws (updateModeUIChecked b (some rv) none rb db) = true)
    ∧ (∀ db rv dv, initializePageSpecifics none db rv dv = .ok none)
    ∧ (∀ rb rv dv, initializePageSpecifics (some rb) none rv dv = .ok none) := by
  refine ⟨fun _ _ => rfl, fun _ _ _ => rfl, fun _ _ => rfl, fun _ _ => rfl,
    fun _ _ => rfl, fun _ _ _ _ _ => rfl, fun _ _ _ _ => rfl, fun _ _ _ _ => rfl,
    fun _ _ _ => rfl, fun _ _ _ => rfl⟩

end CodeRide
